import Mathlib

/-!
Verification of the beep/boop directory-coordination system.

This file embeds the core of the TypeScript implementation
(`src/file-operations.ts`, `src/tools.ts`, `src/http-listener-client.ts`)
as executable Lean definitions and proves properties of the embedding.

Modelling conventions:
* JS strings are Lean `String`; `s.trim()` is the executable `jsTrim`,
  and the JS truthiness of a string (empty string is falsy) is modelled
  by explicit `length = 0` tests, mirroring the places the source tests
  truthiness.
* Wall-clock timestamps are `Int` milliseconds; the float-valued
  `maxAgeHours` configuration value is a rational number.
* Filesystem effects are explicit state passing over `DirState`
  (the pair of optional marker files of one directory), with a
  `FsFaults` record injecting the I/O failures a call site can hit and,
  where ordering matters, an explicit trace of filesystem operations.
-/

namespace BeepBoop

/-- Configuration fields of `BeepBoopConfig` (src/config.ts) used by the
embedded operations. -/
structure BeepBoopConfig where
  maxAgentIdLength : Nat
  requireTeamPrefix : Bool
  teamPrefixes : List String
  listenerTimeoutBaseMs : Int
  listenerTimeoutPerCharMs : Int
  listenerTimeoutMaxMs : Int
  deriving Repr, DecidableEq

/-- JS `String.prototype.trim`: strip whitespace from both ends. Defined
over the character list so that concrete instances reduce in the
kernel. -/
def jsTrim (s : String) : String :=
  ⟨((s.data.dropWhile Char.isWhitespace).reverse.dropWhile Char.isWhitespace).reverse⟩

/-- JS `String.prototype.startsWith`. -/
def jsStartsWith (s p : String) : Bool :=
  p.data.isPrefixOf s.data

/-- JS `x || dflt` for an optional string: `undefined` and the empty
string both fall back to the default. -/
def orDefault (x : Option String) (dflt : String) : String :=
  match x with
  | some s => if s.length = 0 then dflt else s
  | none => dflt

/-- One character of the agent-id character class `[a-zA-Z0-9._-]`
(src/file-operations.ts, the `validPattern` regex). -/
def isValidAgentChar (c : Char) : Bool :=
  c.isAlphanum || c = '.' || c = '_' || c = '-'

/-- `/^[a-zA-Z0-9._-]+$/.test s`: nonempty and every character in the
class. -/
def agentIdCharsOk (s : String) : Bool :=
  decide (s.length ≠ 0) && s.data.all isValidAgentChar

/-- `validateAgentIdPrefix` (src/config.ts): team-prefix requirement. -/
def validateAgentIdPrefix (agentId : String) (config : BeepBoopConfig) : Bool :=
  if !config.requireTeamPrefix then true
  else if config.teamPrefixes.length = 0 then true
  else config.teamPrefixes.any (fun p => jsStartsWith agentId p)

/-- `validateAgentIdWithConfig` (src/file-operations.ts): trims, then
checks nonemptiness, the length bound, the team prefix and the character
class on the trimmed string. -/
def validateAgentIdWithConfig (agentId : String) (config : BeepBoopConfig) : Bool :=
  let trimmed := jsTrim agentId
  if trimmed.length = 0 then false
  else if config.maxAgentIdLength < trimmed.length then false
  else if !validateAgentIdPrefix trimmed config then false
  else agentIdCharsOk trimmed

/-- `validateAgentId` (src/file-operations.ts): the backward-compatible
validator with a fixed length limit of 100 and no prefix requirement. -/
def validateAgentId (agentId : String) : Bool :=
  let trimmed := jsTrim agentId
  if trimmed.length = 0 then false
  else if 100 < trimmed.length then false
  else agentIdCharsOk trimmed

/-- Stored body of a `boop` marker file as `getFileMetadata` +
`parseBoopContent` see it: a parseable JSON object (whose `agentId`
field may be absent), an empty file (trimmed content is the empty
string), or non-JSON text. -/
inductive BoopBody where
  | jsonBody (startedAt : Int) (agentId : Option String) (workDescription : String)
  | emptyBody
  | textBody (lines : List String)
  deriving Repr, DecidableEq

/-- A `boop` marker on disk: its stat mtime and its content. -/
structure BoopMarker where
  mtime : Int
  body : BoopBody
  deriving Repr, DecidableEq

/-- A `beep` marker on disk, as written by `createBeepFile`. -/
structure BeepMarker where
  mtime : Int
  completedAt : Int
  message : String
  completedBy : Option String
  deriving Repr, DecidableEq

/-- The two marker files of one directory. -/
structure DirState where
  beep : Option BeepMarker
  boop : Option BoopMarker
  deriving Repr, DecidableEq

/-- `WorkState` (src/types.ts). -/
inductive WorkState where
  | WORK_ALLOWED
  | WORK_IN_PROGRESS
  | NO_COORDINATION
  | INVALID_STATE
  deriving Repr, DecidableEq

/-- `ErrorCode` (src/types.ts). -/
inductive ErrorCode where
  | DIRECTORY_NOT_FOUND
  | PERMISSION_DENIED
  | FILE_SYSTEM_ERROR
  | INVALID_AGENT_ID
  | WORK_ALREADY_IN_PROGRESS
  | WORK_NOT_CLAIMED
  | INVALID_STATE
  | AGENT_MISMATCH
  deriving Repr, DecidableEq

/-- Whether `getFileMetadata(...).content` is truthy for this body:
the empty file has falsy (empty-string) content. -/
def boopHasContent : BoopBody → Bool
  | .emptyBody => false
  | _ => true

/-- First-line fallback used by `parseBoopContent` for non-JSON text:
`lines[0]?.trim() || 'unknown'`. -/
def firstLineAgentId (lines : List String) : String :=
  let h := jsTrim (lines.headD "")
  if h.length = 0 then "unknown" else h

/-- The agent id `parseBoopContent` derives from a boop body. For JSON
the `agentId` field is taken as-is (possibly absent); for text the
first line is used. -/
def boopParsedAgentId : BoopBody → Option String
  | .jsonBody _ a _ => a
  | .emptyBody => none
  | .textBody lines => some (firstLineAgentId lines)

/-- The relevant fields of the `WorkStatus` record computed by
`getWorkStatus` (src/file-operations.ts). -/
structure WorkStatus where
  beepExists : Bool
  boopExists : Bool
  status : WorkState
  agentId : Option String
  beepTimestamp : Option Int
  boopTimestamp : Option Int
  deriving Repr, DecidableEq

/-- `getWorkStatus` (src/file-operations.ts): derives the coordination
state of a directory freshly from the two marker files. The boop
timestamp and agent id are only extracted when the boop file has
truthy (nonempty) content. -/
def getWorkStatus (d : DirState) : WorkStatus :=
  let beepExists := d.beep.isSome
  let boopExists := d.boop.isSome
  let beepTimestamp : Option Int := d.beep.map (fun b => b.mtime)
  let boopInfo : Option Int × Option String :=
    match d.boop with
    | none => (none, none)
    | some bm =>
      if boopHasContent bm.body then (some bm.mtime, boopParsedAgentId bm.body)
      else (none, none)
  let status : WorkState :=
    if beepExists && !boopExists then .WORK_ALLOWED
    else if boopExists && !beepExists then .WORK_IN_PROGRESS
    else if !beepExists && !boopExists then .NO_COORDINATION
    else .INVALID_STATE
  { beepExists := beepExists, boopExists := boopExists, status := status,
    agentId := boopInfo.2, beepTimestamp := beepTimestamp, boopTimestamp := boopInfo.1 }

/-- `isFileStale` (src/file-operations.ts): the age in milliseconds must
strictly exceed `maxAgeHours` converted to milliseconds. -/
def isFileStale (nowMs timestampMs : Int) (maxAgeHours : ℚ) : Bool :=
  let ageInMs : ℚ := ((nowMs - timestampMs : Int) : ℚ)
  let maxAgeMs : ℚ := maxAgeHours * (60 * 60 * 1000)
  decide (maxAgeMs < ageInMs)

/-- `HttpListenerClient.buildTimeoutMs` (src/http-listener-client.ts):
base plus per-character scaling of the serialized body length, capped at
the configured maximum. -/
def buildTimeoutMs (cfg : BeepBoopConfig) (serializedLen : Nat) : Int :=
  let adaptive := cfg.listenerTimeoutBaseMs + (serializedLen : Int) * cfg.listenerTimeoutPerCharMs
  min cfg.listenerTimeoutMaxMs adaptive

/-- Injected I/O failures for one call: whether each filesystem write or
delete a call site performs throws. -/
structure FsFaults where
  removeBoopFails : Bool
  removeBeepFails : Bool
  createBeepFails : Bool
  createBoopFails : Bool
  deriving Repr, DecidableEq

/-- The fault assignment in which every filesystem operation succeeds. -/
def noFaults : FsFaults :=
  { removeBoopFails := false, removeBeepFails := false,
    createBeepFails := false, createBoopFails := false }

/-- Filesystem operations recorded in an execution trace (payloads live
in the resulting state). -/
inductive FsOp where
  | removeBoop
  | writeBeep
  | writeBoop
  deriving Repr, DecidableEq

/-- The beep record `createBeepFile` writes: completion time, the
message defaulted to "Work completed", and the optional completing
agent. -/
def mkBeepMarker (now : Int) (message : Option String) (completedBy : Option String) :
    BeepMarker :=
  { mtime := now, completedAt := now, message := orDefault message "Work completed",
    completedBy := completedBy }

/-- The boop record `createBoopFile` writes: start time, the trimmed
agent id, and the description defaulted to "Work in progress". -/
def mkBoopMarker (now : Int) (agentId : String) (workDescription : Option String) :
    BoopMarker :=
  { mtime := now,
    body := .jsonBody now (some (jsTrim agentId)) (orDefault workDescription "Work in progress") }

/-- `createBeepFile` (src/file-operations.ts): overwrites the beep
marker; an I/O failure surfaces as a coordination error. -/
def createBeepFile (d : DirState) (f : FsFaults) (now : Int) (message : Option String)
    (completedBy : Option String) : Except ErrorCode DirState :=
  if f.createBeepFails then .error .FILE_SYSTEM_ERROR
  else .ok { d with beep := some (mkBeepMarker now message completedBy) }

/-- `createBoopFile` (src/file-operations.ts): rejects an id that trims
to the empty string, then overwrites the boop marker with the trimmed
id. -/
def createBoopFile (d : DirState) (f : FsFaults) (now : Int) (agentId : String)
    (workDescription : Option String) : Except ErrorCode DirState :=
  if (jsTrim agentId).length = 0 then .error .INVALID_AGENT_ID
  else if f.createBoopFails then .error .FILE_SYSTEM_ERROR
  else .ok { d with boop := some (mkBoopMarker now agentId workDescription) }

/-- `removeBoopFile` (src/file-operations.ts): deletes the boop marker;
a missing file is success (idempotent), any other failure is an I/O
error. -/
def removeBoopFile (d : DirState) (f : FsFaults) : Except ErrorCode DirState :=
  if f.removeBoopFails then .error .FILE_SYSTEM_ERROR
  else .ok { d with boop := none }

/-- The holder check of `endWorkAtomically`:
`currentStatus.agentId && currentStatus.agentId !== expectedAgentId`.
An absent id — and, by JS truthiness, an empty one — skips the check. -/
def agentMismatch (stored : Option String) (expected : String) : Bool :=
  match stored with
  | some held => decide (held.length ≠ 0) && held != expected
  | none => false

/-- Equality of `Except` results is decidable when both components have
decidable equality. -/
def exceptDecEq {ε α : Type} [DecidableEq ε] [DecidableEq α] :
    (a b : Except ε α) → Decidable (a = b)
  | .ok a, .ok b =>
    if h : a = b then isTrue (by rw [h]) else isFalse (by simp [h])
  | .ok _, .error _ => isFalse (by simp)
  | .error _, .ok _ => isFalse (by simp)
  | .error e, .error e2 =>
    if h : e = e2 then isTrue (by rw [h]) else isFalse (by simp [h])

instance {ε α : Type} [DecidableEq ε] [DecidableEq α] : DecidableEq (Except ε α) :=
  exceptDecEq

/-- Result, final directory state, and filesystem-operation trace of one
`endWorkAtomically` call. -/
structure EndWorkOutcome where
  result : Except ErrorCode Unit
  state : DirState
  trace : List FsOp
  deriving Repr, DecidableEq

/-- The best-effort recovery of `endWorkAtomically`: try to re-create
the boop file with the synthetic description "Work restoration after
failure"; a failure of the attempt is swallowed. -/
def restoreBoopBestEffort (d : DirState) (f : FsFaults) (now : Int)
    (expectedAgentId : String) : DirState × List FsOp :=
  match createBoopFile d f now expectedAgentId (some "Work restoration after failure") with
  | .ok d2 => (d2, [FsOp.writeBoop])
  | .error _ => (d, [])

/-- `endWorkAtomically` (src/file-operations.ts): verify the directory
is held (else `WORK_NOT_CLAIMED`) by the expected agent when a holder id
was parsed (else `AGENT_MISMATCH`), then delete the boop marker and
write the beep marker attributed to the caller; if either step throws,
attempt the best-effort restoration and propagate the original error. -/
def endWorkAtomically (d : DirState) (f : FsFaults) (now : Int)
    (expectedAgentId : String) (message : Option String) : EndWorkOutcome :=
  let currentStatus := getWorkStatus d
  if currentStatus.status ≠ WorkState.WORK_IN_PROGRESS then
    { result := .error .WORK_NOT_CLAIMED, state := d, trace := [] }
  else if agentMismatch currentStatus.agentId expectedAgentId then
    { result := .error .AGENT_MISMATCH, state := d, trace := [] }
  else
    match removeBoopFile d f with
    | .error e =>
      let r := restoreBoopBestEffort d f now expectedAgentId
      { result := .error e, state := r.1, trace := r.2 }
    | .ok d1 =>
      match createBeepFile d1 f now message (some expectedAgentId) with
      | .ok d2 =>
        { result := .ok (), state := d2, trace := [FsOp.removeBoop, FsOp.writeBeep] }
      | .error e =>
        let r := restoreBoopBestEffort d1 f now expectedAgentId
        { result := .error e, state := r.1, trace := FsOp.removeBoop :: r.2 }

/-- Errors a tool handler can report (src/tools.ts renders them as
`isError` responses; the variants record which branch produced them). -/
inductive ToolError where
  | invalidAgentId
  | conflictInUse (holder : Option String)
  | workInProgress (holder : Option String)
  | beepRemovalFailed
  | coordination (e : ErrorCode)
  deriving Repr, DecidableEq

/-- Result and final directory state of one tool call. -/
structure ToolOutcome where
  result : Except ToolError Unit
  state : DirState
  deriving Repr, DecidableEq

/-- `handleUpdateBoop` (src/tools.ts) — the claim operation: validate
the agent id, reject when another agent's work is in progress, remove a
lingering beep marker when transitioning from `WORK_ALLOWED`, then write
the boop marker. -/
def handleUpdateBoop (d : DirState) (f : FsFaults) (now : Int) (agentId : String)
    (workDescription : Option String) (config : BeepBoopConfig) : ToolOutcome :=
  if !validateAgentIdWithConfig agentId config then
    { result := .error .invalidAgentId, state := d }
  else
    let status := getWorkStatus d
    if status.status = WorkState.WORK_IN_PROGRESS ∧ status.agentId ≠ some agentId then
      { result := .error (.conflictInUse status.agentId), state := d }
    else
      let step : Except ToolError DirState :=
        if status.status = WorkState.WORK_ALLOWED ∧ status.beepExists = true then
          if f.removeBeepFails then .error .beepRemovalFailed
          else .ok { d with beep := none }
        else .ok d
      match step with
      | .error e => { result := .error e, state := d }
      | .ok d1 =>
        match createBoopFile d1 f now agentId workDescription with
        | .ok d2 => { result := .ok (), state := d2 }
        | .error e => { result := .error (.coordination e), state := d1 }

/-- `handleCreateBeep` (src/tools.ts) — the markComplete operation:
reject only when work is in progress, otherwise write the beep marker
(without a completing agent). -/
def handleCreateBeep (d : DirState) (f : FsFaults) (now : Int)
    (message : Option String) : ToolOutcome :=
  let status := getWorkStatus d
  if status.status = WorkState.WORK_IN_PROGRESS then
    { result := .error (.workInProgress status.agentId), state := d }
  else
    match createBeepFile d f now message none with
    | .ok d1 => { result := .ok (), state := d1 }
    | .error e => { result := .error (.coordination e), state := d }

/-- `handleEndWork` (src/tools.ts) — the release operation: validate the
agent id, then run `endWorkAtomically`. -/
def handleEndWork (d : DirState) (f : FsFaults) (now : Int) (agentId : String)
    (message : Option String) (config : BeepBoopConfig) : ToolOutcome :=
  if !validateAgentIdWithConfig agentId config then
    { result := .error .invalidAgentId, state := d }
  else
    let o := endWorkAtomically d f now agentId message
    { result := o.result.mapError ToolError.coordination, state := o.state }

/-- The flags `cleanupStaleBoopAndClaim` returns. -/
structure CleanupResult where
  cleanedUp : Bool
  claimed : Bool
  deriving Repr, DecidableEq

/-- `cleanupStaleBoopAndClaim` (src/file-operations.ts): delete the boop
marker unconditionally (the stale agent id is only echoed in the
message), then claim for `newAgentId` only when it is supplied, truthy
and passes `validateAgentId`; any thrown error is rewrapped as a
filesystem error. -/
def cleanupStaleBoopAndClaim (d : DirState) (f : FsFaults) (now : Int)
    (staleAgentId : String) (newAgentId : Option String) (workDescription : Option String) :
    Except ErrorCode CleanupResult × DirState :=
  match removeBoopFile d f with
  | .error _ => (.error .FILE_SYSTEM_ERROR, d)
  | .ok d1 =>
    match newAgentId with
    | some na =>
      if na.length ≠ 0 ∧ validateAgentId na = true then
        match createBoopFile d1 f now na
            (some (orDefault workDescription "Claimed after stale cleanup")) with
        | .ok d2 => (.ok { cleanedUp := true, claimed := true }, d2)
        | .error _ => (.error .FILE_SYSTEM_ERROR, d1)
      else (.ok { cleanedUp := true, claimed := false }, d1)
    | none => (.ok { cleanedUp := true, claimed := false }, d1)

/-- Messaging platforms handled by `handleInitiateConversation`
(src/tools.ts). -/
inductive Platform where
  | slack
  | discord
  deriving Repr, DecidableEq

/-- Context fields of a stored inbox record used during reply
correlation. -/
structure MsgContext where
  channelId : String
  messageId : Option String
  threadId : Option String
  threadTs : Option String
  deriving Repr, DecidableEq

/-- A stored inbox record (src/ingress/inbox.ts) as the correlation loop
reads it. -/
structure IngressMessage where
  id : String
  platform : Platform
  authorId : String
  context : MsgContext
  createdAt : Int
  deriving Repr, DecidableEq

/-- The `isReply` test of the polling loop in
`handleInitiateConversation` (src/tools.ts): for Discord the record's
thread id must equal the created thread id (both possibly absent); for
Slack the record's `threadTs` must equal the initiating message id or
the record must be in the same channel. -/
def isReplyContext (platform : Platform) (threadId : Option String) (messageId : String)
    (finalChannelId : String) (m : IngressMessage) : Bool :=
  match platform with
  | .discord => m.context.threadId == threadId
  | .slack => m.context.threadTs == some messageId || m.context.channelId == finalChannelId

/-- One record's full qualification test in the polling loop: same
platform, `isReply`, authored by someone other than the initiator
(`agentId` or the literal "system"), and strictly newer than the
initiating record. -/
def qualifiesAsReply (platform : Platform) (threadId : Option String) (messageId : String)
    (finalChannelId : String) (initiatorId : String) (initCreatedAt : Int)
    (m : IngressMessage) : Bool :=
  m.platform == platform &&
  isReplyContext platform threadId messageId finalChannelId m &&
  m.authorId != initiatorId &&
  decide (initCreatedAt < m.createdAt)

/-- One scan of the inbox in the polling loop: the first record (in
store iteration order) that qualifies is returned. -/
def findReply (platform : Platform) (threadId : Option String) (messageId : String)
    (finalChannelId : String) (initiatorId : String) (initCreatedAt : Int)
    (msgs : List IngressMessage) : Option IngressMessage :=
  msgs.find? (qualifiesAsReply platform threadId messageId finalChannelId
    initiatorId initCreatedAt)

/-- Modelled from the claim's wording (C8), for comparison with the
code's `qualifiesAsReply`: the record is on the same platform; its
context references the same thread as the initiating message or,
lacking a thread, the same channel or the initiating-message reference;
its author differs from the initiator; and its timestamp is strictly
later. -/
def specQualifiesAsReply (platform : Platform) (threadId : Option String)
    (messageId : String) (finalChannelId : String) (initiatorId : String)
    (initCreatedAt : Int) (m : IngressMessage) : Bool :=
  m.platform == platform &&
  (match threadId with
   | some t => m.context.threadId == some t || m.context.threadTs == some t
   | none =>
     m.context.channelId == finalChannelId ||
     m.context.threadTs == some messageId ||
     m.context.messageId == some messageId) &&
  m.authorId != initiatorId &&
  decide (initCreatedAt < m.createdAt)

/-- Temporal ordering property of a filesystem trace: every beep write
is preceded by a boop removal. -/
def beepWriteAfterBoopRemoval (tr : List FsOp) : Prop :=
  ∀ i : Fin tr.length, tr.get i = FsOp.writeBeep →
    ∃ j : Fin tr.length, j.val < i.val ∧ tr.get j = FsOp.removeBoop

/-- A configuration with the source defaults relevant here: agent-id
length limit 100, no team-prefix requirement, and the delegation timeout
parameters of the claims (base 1000 ms, 5 ms per character, 60000 ms
cap). -/
def exampleConfig : BeepBoopConfig :=
  { maxAgentIdLength := 100, requireTeamPrefix := false, teamPrefixes := [],
    listenerTimeoutBaseMs := 1000, listenerTimeoutPerCharMs := 5,
    listenerTimeoutMaxMs := 60000 }

/-- A directory manufactured into the invalid state: both markers
present. -/
def bothMarkersDir : DirState :=
  { beep := some { mtime := 0, completedAt := 0, message := "done", completedBy := none },
    boop := some { mtime := 0, body := .jsonBody 0 (some "alice") "initial work" } }

/-- A directory with only the released marker (state `WORK_ALLOWED`). -/
def beepOnlyDir : DirState :=
  { beep := some { mtime := 0, completedAt := 0, message := "done", completedBy := none },
    boop := none }

/-- An unclaimed directory: neither marker present. -/
def emptyDir : DirState :=
  { beep := none, boop := none }

/-- A held directory whose boop marker names "old-agent". -/
def heldDir : DirState :=
  { beep := none, boop := some { mtime := 0, body := .jsonBody 0 (some "old-agent") "stale work" } }

/-- A held directory whose boop file is empty: no agent id can be
parsed from it. -/
def emptyBoopDir : DirState :=
  { beep := none, boop := some { mtime := 0, body := .emptyBody } }

/-- A Discord inbox record in a different channel than an initiating
message, lacking a thread id. -/
def strayDiscordMsg : IngressMessage :=
  { id := "m2", platform := .discord, authorId := "yuki",
    context := { channelId := "other-channel", messageId := some "m9",
                 threadId := none, threadTs := none },
    createdAt := 5 }

/-- A string of length zero is the empty string. -/
theorem string_length_zero {s : String} (h : s.length = 0) : s = "" := by
  cases s with
  | mk data =>
    simp [String.length] at h
    simp [h]

/-- An agent id accepted by `validateAgentIdWithConfig` does not trim to
the empty string. -/
theorem validate_trim_nonempty {a : String} {cfg : BeepBoopConfig}
    (h : validateAgentIdWithConfig a cfg = true) : (jsTrim a).length ≠ 0 := by
  intro hz
  rw [validateAgentIdWithConfig] at h
  simp only [hz] at h
  simp at h

/-- An agent id accepted by `validateAgentId` is not the empty string. -/
theorem validateAgentId_nonempty {a : String}
    (h : validateAgentId a = true) : a.length ≠ 0 := by
  intro hz
  have he : a = "" := string_length_zero hz
  subst he
  simp [validateAgentId, jsTrim] at h

/-- An agent id accepted by `validateAgentId` does not trim to the empty
string. -/
theorem validateAgentId_trim_nonempty {a : String}
    (h : validateAgentId a = true) : (jsTrim a).length ≠ 0 := by
  intro hz
  rw [validateAgentId] at h
  simp only [hz] at h
  simp at h

/-- The trace of one `endWorkAtomically` call is one of five concrete
shapes, depending on which filesystem steps fail. -/
theorem endWork_trace_mem (d : DirState) (f : FsFaults) (now : Int) (a : String)
    (m : Option String) :
    (endWorkAtomically d f now a m).trace = [] ∨
    (endWorkAtomically d f now a m).trace = [FsOp.writeBoop] ∨
    (endWorkAtomically d f now a m).trace = [FsOp.removeBoop] ∨
    (endWorkAtomically d f now a m).trace = [FsOp.removeBoop, FsOp.writeBoop] ∨
    (endWorkAtomically d f now a m).trace = [FsOp.removeBoop, FsOp.writeBeep] := by
  obtain ⟨rb, rbe, cb, cbo⟩ := f
  cases rb <;> cases cb <;> cases cbo <;>
    simp [endWorkAtomically, removeBoopFile, createBeepFile, createBoopFile,
      restoreBoopBestEffort] <;>
    split_ifs <;> simp

/-- Claim C1, counterexample: in a directory with both markers present
(derived state `INVALID_STATE`), `update_boop` with the valid agent id
"bob" does not fail with an invalid-state outcome — it returns success
and rewrites the boop marker record. -/
theorem c1_invalid_state_claim_succeeds :
    (getWorkStatus bothMarkersDir).status = WorkState.INVALID_STATE ∧
    validateAgentIdWithConfig "bob" exampleConfig = true ∧
    (handleUpdateBoop bothMarkersDir noFaults 5 "bob" none exampleConfig).result = .ok () ∧
    (handleUpdateBoop bothMarkersDir noFaults 5 "bob" none exampleConfig).state.boop ≠
      bothMarkersDir.boop := by decide

/-- Claim C1, amended: for every directory in which both markers are
present, `end_work` (with any valid agent id, under any injected
faults) fails — with a work-not-claimed error, not an invalid-state
one — leaving both marker records unmodified; `update_boop` (with any
valid agent id) does not fail: it succeeds, rewriting the held marker
while keeping the released marker, so the directory stays in the
invalid state. -/
theorem c1_invalid_state_transitions :
    ∀ (d : DirState) (cfg : BeepBoopConfig) (now now2 : Int) (a b : String)
      (wd m : Option String) (f : FsFaults),
      d.beep.isSome = true → d.boop.isSome = true →
      validateAgentIdWithConfig a cfg = true →
      validateAgentIdWithConfig b cfg = true →
      (getWorkStatus d).status = WorkState.INVALID_STATE ∧
      handleEndWork d f now2 b m cfg =
        { result := .error (.coordination ErrorCode.WORK_NOT_CLAIMED), state := d } ∧
      handleUpdateBoop d noFaults now a wd cfg =
        { result := .ok (),
          state := { beep := d.beep, boop := some (mkBoopMarker now a wd) } } ∧
      (getWorkStatus { beep := d.beep, boop := some (mkBoopMarker now a wd) }).status =
        WorkState.INVALID_STATE := by
  intro d cfg now now2 a b wd m f hbeep hboop hva hvb
  have hlen : (jsTrim a).length ≠ 0 := validate_trim_nonempty hva
  obtain ⟨db, dp⟩ := d
  cases db with
  | none => simp at hbeep
  | some bp =>
    cases dp with
    | none => simp at hboop
    | some pp =>
      refine ⟨?_, ?_, ?_, ?_⟩
      · simp [getWorkStatus]
      · simp [handleEndWork, hvb, getWorkStatus, endWorkAtomically, Except.mapError]
      · simp [handleUpdateBoop, hva, getWorkStatus, createBoopFile, noFaults, hlen,
          mkBoopMarker]
      · simp [getWorkStatus]

/-- Witness for `c1_invalid_state_transitions` at the concrete invalid
directory `bothMarkersDir`. -/
theorem c1_invalid_state_transitions_witness :
    handleEndWork bothMarkersDir noFaults 6 "carol" none exampleConfig =
      { result := .error (.coordination ErrorCode.WORK_NOT_CLAIMED),
        state := bothMarkersDir } :=
  (c1_invalid_state_transitions bothMarkersDir exampleConfig 5 6 "bob" "carol" none none
    noFaults (by decide) (by decide) (by decide) (by decide)).2.1

/-- Claim C2, counterexample: in a directory with both markers present,
`claim(d, "alice")` succeeds, yet the derived state afterwards is not
`WORK_IN_PROGRESS` (it is still the invalid state), and the subsequent
`claim(d, "bob")` also succeeds instead of failing with a
conflict-in-use error. -/
theorem c2_conflict_start_not_held :
    validateAgentIdWithConfig "alice" exampleConfig = true ∧
    validateAgentIdWithConfig "bob" exampleConfig = true ∧
    ("bob" : String) ≠ "alice" ∧
    (handleUpdateBoop bothMarkersDir noFaults 5 "alice" none exampleConfig).result = .ok () ∧
    (getWorkStatus
        (handleUpdateBoop bothMarkersDir noFaults 5 "alice" none exampleConfig).state).status ≠
      WorkState.WORK_IN_PROGRESS ∧
    (handleUpdateBoop
        (handleUpdateBoop bothMarkersDir noFaults 5 "alice" none exampleConfig).state
        noFaults 6 "bob" none exampleConfig).result = .ok () := by decide

/-- Claim C2, amended: for every directory not in the both-marker
invalid state and valid agent ids a and b (ids that carry no
surrounding whitespace, as the data model's restricted character set
requires) with b ≠ a: whenever `claim(d, a, _)` succeeds the derived
state is Held with holder a, and a subsequent `claim(d, b, _)` fails
with a conflict-in-use error naming a while leaving the state (Held,
holder a) unchanged. -/
theorem c2_claim_then_conflict :
    ∀ (d : DirState) (cfg : BeepBoopConfig) (now now2 : Int) (a b : String)
      (wd wd2 : Option String),
      ¬(d.beep.isSome = true ∧ d.boop.isSome = true) →
      validateAgentIdWithConfig a cfg = true →
      jsTrim a = a →
      validateAgentIdWithConfig b cfg = true →
      b ≠ a →
      ∀ d1, handleUpdateBoop d noFaults now a wd cfg = { result := .ok (), state := d1 } →
        (getWorkStatus d1).status = WorkState.WORK_IN_PROGRESS ∧
        (getWorkStatus d1).agentId = some a ∧
        handleUpdateBoop d1 noFaults now2 b wd2 cfg =
          { result := .error (.conflictInUse (some a)), state := d1 } := by
  intro d cfg now now2 a b wd wd2 hconf hva hta hvb hba d1 hok
  have hlen : (jsTrim a).length ≠ 0 := validate_trim_nonempty hva
  have hab : a ≠ b := fun h => hba h.symm
  obtain ⟨db, dp⟩ := d
  have hstate : d1 = { beep := none, boop := some (mkBoopMarker now a wd) } := by
    cases db with
    | some bp =>
      cases dp with
      | some pp => exact absurd ⟨rfl, rfl⟩ hconf
      | none =>
        simp [handleUpdateBoop, hva, getWorkStatus, createBoopFile, noFaults, hlen] at hok
        exact hok.symm
    | none =>
      cases dp with
      | none =>
        simp [handleUpdateBoop, hva, getWorkStatus, createBoopFile, noFaults, hlen] at hok
        exact hok.symm
      | some pp =>
        by_cases hag :
            (getWorkStatus { beep := none, boop := some pp }).agentId = some a
        all_goals simp [getWorkStatus] at hag
        · simp [handleUpdateBoop, hva, getWorkStatus, createBoopFile, noFaults, hlen,
            hag] at hok
          exact hok.symm
        · simp [handleUpdateBoop, hva, getWorkStatus, createBoopFile, noFaults, hlen,
            hag] at hok
  subst hstate
  refine ⟨?_, ?_, ?_⟩
  · simp [getWorkStatus, mkBoopMarker, boopHasContent]
  · simp [getWorkStatus, mkBoopMarker, boopHasContent, boopParsedAgentId, hta]
  · simp [handleUpdateBoop, hvb, getWorkStatus, mkBoopMarker, boopHasContent,
      boopParsedAgentId, hta, hab]

/-- Witness for `c2_claim_then_conflict`: starting from the unclaimed
directory, "alice" claims, then "bob" is refused with a conflict naming
"alice". -/
theorem c2_claim_then_conflict_witness :
    handleUpdateBoop { beep := none, boop := some (mkBoopMarker 5 "alice" none) } noFaults
        6 "bob" none exampleConfig =
      { result := .error (.conflictInUse (some "alice")),
        state := { beep := none, boop := some (mkBoopMarker 5 "alice" none) } } :=
  (c2_claim_then_conflict emptyDir exampleConfig 5 6 "alice" "bob" none none (by decide)
    (by decide) (by decide) (by decide) (by decide) _ (by decide)).2.2

/-- Claim C3, counterexample: a directory holding only the released
marker is in state `WORK_ALLOWED` — not Unclaimed — and `create_beep`
nevertheless succeeds there, contradicting "from every state other than
Unclaimed the call fails". -/
theorem c3_create_beep_succeeds_outside_unclaimed :
    (getWorkStatus beepOnlyDir).status ≠ WorkState.NO_COORDINATION ∧
    (getWorkStatus beepOnlyDir).status = WorkState.WORK_ALLOWED ∧
    (handleCreateBeep beepOnlyDir noFaults 5 (some "again")).result = .ok () := by decide

/-- Claim C3, amended: `create_beep` (markComplete) fails exactly when
the directory is Held (work in progress), in which case it names the
holder and leaves the directory unmodified; from every other state —
Unclaimed, ReleasedAvailable, and even the both-marker invalid state —
it succeeds, rewriting the released marker and leaving the held marker
untouched. -/
theorem c3_create_beep_fails_iff_held :
    ∀ (d : DirState) (now : Int) (m : Option String),
      ((handleCreateBeep d noFaults now m).result = .ok () ↔
        (getWorkStatus d).status ≠ WorkState.WORK_IN_PROGRESS) ∧
      ((getWorkStatus d).status = WorkState.WORK_IN_PROGRESS →
        handleCreateBeep d noFaults now m =
          { result := .error (.workInProgress ((getWorkStatus d).agentId)), state := d }) ∧
      ((getWorkStatus d).status ≠ WorkState.WORK_IN_PROGRESS →
        handleCreateBeep d noFaults now m =
          { result := .ok (),
            state := { beep := some (mkBeepMarker now m none), boop := d.boop } }) := by
  intro d now m
  by_cases h : (getWorkStatus d).status = WorkState.WORK_IN_PROGRESS <;>
    obtain ⟨db, dp⟩ := d <;>
    simp [handleCreateBeep, createBeepFile, noFaults, h]

/-- Witness for `c3_create_beep_fails_iff_held` at the released-only
directory. -/
theorem c3_create_beep_fails_iff_held_witness :
    handleCreateBeep beepOnlyDir noFaults 5 (some "again") =
      { result := .ok (),
        state := { beep := some (mkBeepMarker 5 (some "again") none), boop := none } } :=
  (c3_create_beep_fails_iff_held beepOnlyDir 5 (some "again")).2.2 (by decide)

/-- Claim C4, counterexample: with an invalid `newAgentId`,
`cleanupStaleBoopAndClaim` does not fail — it returns success with
`cleanedUp = true` and `claimed = false`, the deletion of the held
marker being its only effect. -/
theorem c4_invalid_new_agent_still_succeeds :
    validateAgentId "bad agent!" = false ∧
    cleanupStaleBoopAndClaim heldDir noFaults 5 "old-agent" (some "bad agent!") none =
      (.ok { cleanedUp := true, claimed := false }, { beep := none, boop := none }) := by
  constructor
  · decide
  · decide

/-- Claim C4, amended: `cleanupStaleBoopAndClaim` deletes the held
marker unconditionally — its outcome does not depend on the
`staleAgentId` argument, so the record is never re-checked against the
expected stale holder; it performs a claim only when `newAgentId` is
supplied and passes validation, and it returns flags saying whether
cleanup happened and whether a claim followed; when the supplied id
fails validation the call does not fail: it returns success with
`claimed = false` and the deletion is its only effect. -/
theorem c4_cleanup_characterization :
    ∀ (d : DirState) (now : Int) (stale na : String) (wd : Option String),
      (cleanupStaleBoopAndClaim d noFaults now stale none wd =
        (.ok { cleanedUp := true, claimed := false }, { beep := d.beep, boop := none })) ∧
      (validateAgentId na = true →
        cleanupStaleBoopAndClaim d noFaults now stale (some na) wd =
          (.ok { cleanedUp := true, claimed := true },
           { beep := d.beep,
             boop := some (mkBoopMarker now na
               (some (orDefault wd "Claimed after stale cleanup"))) })) ∧
      (validateAgentId na = false →
        cleanupStaleBoopAndClaim d noFaults now stale (some na) wd =
          (.ok { cleanedUp := true, claimed := false },
           { beep := d.beep, boop := none })) := by
  intro d now stale na wd
  obtain ⟨db, dp⟩ := d
  refine ⟨?_, ?_, ?_⟩
  · simp [cleanupStaleBoopAndClaim, removeBoopFile, noFaults]
  · intro hv
    have hne : na.length ≠ 0 := validateAgentId_nonempty hv
    have hlen : (jsTrim na).length ≠ 0 := validateAgentId_trim_nonempty hv
    simp [cleanupStaleBoopAndClaim, removeBoopFile, createBoopFile, noFaults, hv, hne, hlen]
  · intro hv
    simp [cleanupStaleBoopAndClaim, removeBoopFile, createBoopFile, noFaults, hv]

/-- Witness for `c4_cleanup_characterization`: the held directory is
cleaned up and immediately claimed by the valid id "new-agent". -/
theorem c4_cleanup_characterization_witness :
    cleanupStaleBoopAndClaim heldDir noFaults 7 "old-agent" (some "new-agent") none =
      (.ok { cleanedUp := true, claimed := true },
       { beep := none,
         boop := some (mkBoopMarker 7 "new-agent"
           (some (orDefault none "Claimed after stale cleanup"))) }) :=
  (c4_cleanup_characterization heldDir 7 "old-agent" "new-agent" none).2.1 (by decide)

/-- Claim C5: in every execution of `endWorkAtomically` the boop
deletion precedes any beep write; and when the directory is held by the
caller, the deletion succeeds and the beep write fails, the original
error is propagated while a restoration boop marker with the synthetic
description "Work restoration after failure" is attempted — its own
failure being swallowed (the error and the deletion stand either
way). -/
theorem c5_release_order_and_recovery :
    (∀ (d : DirState) (f : FsFaults) (now : Int) (a : String) (m : Option String),
      beepWriteAfterBoopRemoval (endWorkAtomically d f now a m).trace) ∧
    (∀ (d : DirState) (f : FsFaults) (now : Int) (a : String) (m : Option String),
      (getWorkStatus d).status = WorkState.WORK_IN_PROGRESS →
      agentMismatch (getWorkStatus d).agentId a = false →
      f.removeBoopFails = false →
      f.createBeepFails = true →
      (endWorkAtomically d f now a m).result = .error ErrorCode.FILE_SYSTEM_ERROR ∧
      (f.createBoopFails = false → (jsTrim a).length ≠ 0 →
        (endWorkAtomically d f now a m).state =
          { beep := d.beep,
            boop := some (mkBoopMarker now a (some "Work restoration after failure")) } ∧
        (endWorkAtomically d f now a m).trace = [FsOp.removeBoop, FsOp.writeBoop]) ∧
      (f.createBoopFails = true ∨ (jsTrim a).length = 0 →
        (endWorkAtomically d f now a m).state = { beep := d.beep, boop := none } ∧
        (endWorkAtomically d f now a m).trace = [FsOp.removeBoop])) := by
  constructor
  · intro d f now a m
    rcases endWork_trace_mem d f now a m with h | h | h | h | h <;> rw [h] <;>
      unfold beepWriteAfterBoopRemoval <;> decide
  · intro d f now a m hwip hmis hrb hcb
    obtain ⟨rb, rbe, cb, cbo⟩ := f
    simp only at hrb hcb
    subst hrb hcb
    refine ⟨?_, ?_, ?_⟩
    · by_cases htr : (jsTrim a).length = 0 <;> cases cbo <;>
        simp [endWorkAtomically, hwip, hmis, removeBoopFile, createBeepFile,
          restoreBoopBestEffort, createBoopFile, htr]
    · intro hcbo htrim
      simp only at hcbo
      subst hcbo
      simp [endWorkAtomically, hwip, hmis, removeBoopFile, createBeepFile,
        restoreBoopBestEffort, createBoopFile, htrim]
    · intro hdis
      rcases hdis with hcbo | htrim
      · simp only at hcbo
        subst hcbo
        by_cases htr : (jsTrim a).length = 0 <;>
          simp [endWorkAtomically, hwip, hmis, removeBoopFile, createBeepFile,
            restoreBoopBestEffort, createBoopFile, htr]
      · cases cbo <;>
          simp [endWorkAtomically, hwip, hmis, removeBoopFile, createBeepFile,
            restoreBoopBestEffort, createBoopFile, htrim]

/-- Witness for `c5_release_order_and_recovery`: on the held directory,
with only the beep write failing, release reports the filesystem error
and leaves a restoration boop marker, having removed the original one
first. -/
theorem c5_release_order_and_recovery_witness :
    (endWorkAtomically heldDir
        { removeBoopFails := false, removeBeepFails := false,
          createBeepFails := true, createBoopFails := false } 7 "old-agent" none).result =
      .error ErrorCode.FILE_SYSTEM_ERROR ∧
    (endWorkAtomically heldDir
        { removeBoopFails := false, removeBeepFails := false,
          createBeepFails := true, createBoopFails := false } 7 "old-agent" none).state =
      { beep := none,
        boop := some (mkBoopMarker 7 "old-agent"
          (some "Work restoration after failure")) } ∧
    (endWorkAtomically heldDir
        { removeBoopFails := false, removeBeepFails := false,
          createBeepFails := true, createBoopFails := false } 7 "old-agent" none).trace =
      [FsOp.removeBoop, FsOp.writeBoop] := by
  have h := c5_release_order_and_recovery.2 heldDir
    { removeBoopFails := false, removeBeepFails := false,
      createBeepFails := true, createBoopFails := false } 7 "old-agent" none
    (by decide) (by decide) (by decide) (by decide)
  have h2 := h.2.1 (by decide) (by decide)
  exact ⟨h.1, h2.1, h2.2⟩

/-- Claim C6: the staleness predicate holds iff the age in milliseconds
strictly exceeds `maxAgeHours` converted to milliseconds; a 25-hour age
is stale at threshold 24 and not at 26; and, for the nonnegative
thresholds the configuration surface admits, a negative age (timestamp
in the future) is never stale. -/
theorem c6_staleness_threshold :
    (∀ (now t : Int) (h : ℚ),
      (isFileStale now t h = true ↔ h * 3600000 < ((now - t : Int) : ℚ)) ∧
      (0 ≤ h → now - t < 0 → isFileStale now t h = false)) ∧
    isFileStale 90000000 0 24 = true ∧
    isFileStale 90000000 0 26 = false := by
  refine ⟨fun now t h => ⟨?_, ?_⟩, ?_, ?_⟩
  · simp [isFileStale]
    norm_num
  · intro hh hlt
    simp only [isFileStale, decide_eq_false_iff_not, not_lt]
    have h1 : ((now - t : Int) : ℚ) < 0 := by exact_mod_cast hlt
    have h2 : (0 : ℚ) ≤ h * (60 * 60 * 1000) := by positivity
    linarith
  · norm_num [isFileStale]
  · norm_num [isFileStale]

/-- Witness for `c6_staleness_threshold`: a timestamp one hour in the
future is not stale at threshold 24. -/
theorem c6_staleness_threshold_witness : isFileStale 0 3600000 24 = false :=
  (c6_staleness_threshold.1 0 3600000 24).2 (by norm_num) (by norm_num)

/-- Claim C7: the delegation client's computed timeout is the minimum of
the configured cap and base + serializedBodyLength × perChar; with base
1000 ms, 5 ms per character and a 60000 ms cap, a 10-character body
yields 1050 ms and a 20000-character body yields the 60000 ms cap. -/
theorem c7_delegation_timeout :
    (∀ (cfg : BeepBoopConfig) (len : Nat),
      buildTimeoutMs cfg len =
        min cfg.listenerTimeoutMaxMs
          (cfg.listenerTimeoutBaseMs + (len : Int) * cfg.listenerTimeoutPerCharMs)) ∧
    buildTimeoutMs exampleConfig 10 = 1050 ∧
    buildTimeoutMs exampleConfig 20000 = 60000 := by
  refine ⟨fun cfg len => rfl, by decide, by decide⟩

/-- Claim C8, counterexample: a Discord record in a different channel
from the initiating message, lacking a thread id, is returned as the
reply when no thread was created for the initiating message — although
the claim's criterion (same thread, or same channel or
initiating-message reference) rejects it. -/
theorem c8_cross_channel_discord_reply_returned :
    findReply .discord none "m1" "chan-C" "agent-x" 0 [strayDiscordMsg] =
      some strayDiscordMsg ∧
    strayDiscordMsg.context.channelId ≠ "chan-C" ∧
    specQualifiesAsReply .discord none "m1" "chan-C" "agent-x" 0 strayDiscordMsg = false := by
  refine ⟨by decide, by decide, by decide⟩

/-- Claim C8, amended: a returned record always comes from the scanned
store and satisfies the code's qualification test; that test holds iff
the record is on the same platform, its author id differs from the
initiator's, its timestamp is strictly later, and its context matches —
for Slack, `threadTs` equal to the initiating message id or the same
channel; for Discord, a thread id equal to the created thread's (in
particular, when no thread was created, any record lacking a thread id,
regardless of channel). No record is returned when none qualifies, and
a record authored by the initiator or not strictly newer is never
returned. -/
theorem c8_reply_qualification :
    ∀ (platform : Platform) (threadId : Option String)
      (messageId channelId initiatorId : String) (t0 : Int)
      (msgs : List IngressMessage) (m : IngressMessage),
      (findReply platform threadId messageId channelId initiatorId t0 msgs = some m →
        m ∈ msgs ∧
        qualifiesAsReply platform threadId messageId channelId initiatorId t0 m = true) ∧
      (qualifiesAsReply platform threadId messageId channelId initiatorId t0 m = true ↔
        (m.platform = platform ∧
         (match platform with
          | .discord => m.context.threadId = threadId
          | .slack => m.context.threadTs = some messageId ∨
              m.context.channelId = channelId) ∧
         m.authorId ≠ initiatorId ∧ t0 < m.createdAt)) ∧
      (findReply platform threadId messageId channelId initiatorId t0 msgs = none ↔
        ∀ x ∈ msgs,
          qualifiesAsReply platform threadId messageId channelId initiatorId t0 x = false) ∧
      ((m.authorId = initiatorId ∨ m.createdAt ≤ t0) →
        findReply platform threadId messageId channelId initiatorId t0 msgs ≠ some m) := by
  intro platform threadId messageId channelId initiatorId t0 msgs m
  refine ⟨?_, ?_, ?_, ?_⟩
  · intro hf
    exact ⟨List.mem_of_find?_eq_some hf, List.find?_some hf⟩
  · cases platform <;>
      simp [qualifiesAsReply, isReplyContext, and_assoc]
  · simp [findReply, List.find?_eq_none]
  · intro hbad hf
    have hq := List.find?_some hf
    rcases hbad with hb | hb
    · simp [qualifiesAsReply, hb] at hq
    · have hnl : ¬ t0 < m.createdAt := not_lt.mpr hb
      simp [qualifiesAsReply, hnl] at hq

/-- Witness for `c8_reply_qualification`: a record authored by the
initiator itself is never returned as the reply. -/
theorem c8_reply_qualification_witness :
    findReply .discord none "m1" "chan-C" "yuki" 0 [strayDiscordMsg] ≠
      some strayDiscordMsg :=
  (c8_reply_qualification .discord none "m1" "chan-C" "yuki" 0 [strayDiscordMsg]
    strayDiscordMsg).2.2.2 (Or.inl (by decide))

/-- Claim C9: when the directory is held but the stored boop record
yields no agent id (for instance an empty boop file), `end_work` with
any valid agent id succeeds — the agent-mismatch check is skipped —
deleting the held marker and writing the released marker attributed to
the caller. -/
theorem c9_release_without_stored_holder :
    ∀ (d : DirState) (now : Int) (a : String) (m : Option String) (cfg : BeepBoopConfig),
      validateAgentIdWithConfig a cfg = true →
      d.beep = none →
      (∃ bm, d.boop = some bm ∧ boopParsedAgentId bm.body = none) →
      handleEndWork d noFaults now a m cfg =
        { result := .ok (),
          state := { beep := some (mkBeepMarker now m (some a)), boop := none } } := by
  intro d now a m cfg hval hbeep hex
  obtain ⟨bm, hboop, hpa⟩ := hex
  obtain ⟨db, dp⟩ := d
  simp only at hbeep hboop
  subst hbeep hboop
  cases hbc : boopHasContent bm.body <;>
    simp [handleEndWork, hval, endWorkAtomically, getWorkStatus, agentMismatch, hpa, hbc,
      removeBoopFile, createBeepFile, noFaults, Except.mapError]

/-- Witness for `c9_release_without_stored_holder` at the directory
whose boop file is empty. -/
theorem c9_release_without_stored_holder_witness :
    handleEndWork emptyBoopDir noFaults 9 "agent-1" (some "done now") exampleConfig =
      { result := .ok (),
        state := { beep := some (mkBeepMarker 9 (some "done now") (some "agent-1")),
                   boop := none } } :=
  c9_release_without_stored_holder emptyBoopDir 9 "agent-1" (some "done now") exampleConfig
    (by decide) (by decide)
    ⟨{ mtime := 0, body := .emptyBody }, by decide, by decide⟩

/-- Claim C10: agent-id validation trims before checking, so an
otherwise-valid id with surrounding whitespace passes; the claim stores
the trimmed id, but `end_work` compares the stored id with the supplied
one untrimmed — hence on any claimable directory such an id can claim
successfully and then fails its own release with an agent-mismatch
error, the directory state left unchanged. -/
theorem c10_whitespace_claim_release_asymmetry :
    ∀ (cfg : BeepBoopConfig) (d : DirState) (now now2 : Int) (a : String)
      (wd m : Option String),
      validateAgentIdWithConfig a cfg = true →
      jsTrim a ≠ a →
      d.boop = none →
      (handleUpdateBoop d noFaults now a wd cfg).result = .ok () ∧
      (getWorkStatus (handleUpdateBoop d noFaults now a wd cfg).state).agentId =
        some (jsTrim a) ∧
      handleEndWork (handleUpdateBoop d noFaults now a wd cfg).state noFaults
          now2 a m cfg =
        { result := .error (.coordination ErrorCode.AGENT_MISMATCH),
          state := (handleUpdateBoop d noFaults now a wd cfg).state } := by
  intro cfg d now now2 a wd m hval htrim hboop
  have hlen : (jsTrim a).length ≠ 0 := validate_trim_nonempty hval
  have hne : (jsTrim a != a) = true := by simp [htrim]
  obtain ⟨db, dp⟩ := d
  simp only at hboop
  subst hboop
  cases db <;>
    refine ⟨?_, ?_, ?_⟩ <;>
      simp [handleUpdateBoop, handleEndWork, hval, getWorkStatus, createBoopFile,
        noFaults, hlen, mkBoopMarker, boopHasContent, boopParsedAgentId, endWorkAtomically,
        agentMismatch, hne, removeBoopFile, createBeepFile, Except.mapError]

/-- Witness for `c10_whitespace_claim_release_asymmetry`: the id
" agent-1" (leading space) claims the empty directory but cannot
release it. -/
theorem c10_whitespace_claim_release_asymmetry_witness :
    (handleUpdateBoop emptyDir noFaults 3 " agent-1" none exampleConfig).result = .ok () ∧
    handleEndWork (handleUpdateBoop emptyDir noFaults 3 " agent-1" none exampleConfig).state
        noFaults 4 " agent-1" none exampleConfig =
      { result := .error (.coordination ErrorCode.AGENT_MISMATCH),
        state := (handleUpdateBoop emptyDir noFaults 3 " agent-1" none exampleConfig).state } := by
  have h := c10_whitespace_claim_release_asymmetry exampleConfig emptyDir 3 4 " agent-1"
    none none (by decide) (by decide) (by decide)
  exact ⟨h.1, h.2.2⟩

end BeepBoop
